import Mathlib

/-!
Verification of the Position Risk & Execution Coordination Engine of `monad_rust`.

The Rust sources in `src/monad-bot` are shallowly embedded here:

* `f64` price / percentage values are modelled as exact rationals (`ℚ`);
* `U256` token amounts are modelled as `ℕ` with an explicit `% 2 ^ 256`
  wrap-around where a multiplication can overflow;
* `u64` / `u32` counters and timestamps are modelled as `ℕ` (no claim in this
  development depends on their wrap-around behaviour);
* `HashMap` state is modelled as association lists with upsert semantics;
* async tasks are modelled by pure step functions over explicit state, with
  the outcomes of external (network) calls passed in as `Except` values, and
  by event traces for the lock discipline statements.
-/

set_option autoImplicit false

namespace MonadBot

/-- 160-bit token / wallet address (`alloy::primitives::Address`), modelled
as a natural number. -/
abbrev Address := ℕ

/-- `2 ^ 256`, the modulus of the `U256` type used for raw token amounts. -/
def U256_SIZE : ℕ := 2 ^ 256

/-! ### Association-list maps

Model of `std::collections::HashMap`: lookup finds the entry for a key,
insert overwrites (upsert), remove deletes the entry. -/

/-- Lookup in an association list (`HashMap::get`). -/
def alistLookup {κ α : Type} [DecidableEq κ] : List (κ × α) → κ → Option α
  | [], _ => none
  | e :: rest, k => if e.1 = k then some e.2 else alistLookup rest k

/-- Insert-or-overwrite (`HashMap::insert`). -/
def alistInsert {κ α : Type} [DecidableEq κ] (l : List (κ × α)) (k : κ) (a : α) :
    List (κ × α) :=
  (k, a) :: l.filter (fun e => e.1 ≠ k)

/-- Remove a key (`HashMap::remove`). -/
def alistRemove {κ α : Type} [DecidableEq κ] (l : List (κ × α)) (k : κ) :
    List (κ × α) :=
  l.filter (fun e => e.1 ≠ k)

/-- In-place update of the entry at a key (`HashMap::get_mut` followed by a
field assignment); keys other than `k` are untouched. -/
def alistModify {κ α : Type} [DecidableEq κ] (l : List (κ × α)) (k : κ) (f : α → α) :
    List (κ × α) :=
  l.map (fun e => if e.1 = k then (e.1, f e.2) else e)

theorem alistLookup_insert_self {κ α : Type} [DecidableEq κ]
    (l : List (κ × α)) (k : κ) (a : α) :
    alistLookup (alistInsert l k a) k = some a := by
  simp [alistInsert, alistLookup]

theorem alistLookup_remove_self {κ α : Type} [DecidableEq κ]
    (l : List (κ × α)) (k : κ) :
    alistLookup (alistRemove l k) k = none := by
  induction l with
  | nil => rfl
  | cons e rest ih =>
      by_cases h : e.1 = k
      · simpa [alistRemove, alistLookup, h] using ih
      · simpa [alistRemove, alistLookup, h] using ih

theorem alistLookup_modify_self {κ α : Type} [DecidableEq κ]
    (l : List (κ × α)) (k : κ) (f : α → α) :
    alistLookup (alistModify l k f) k = (alistLookup l k).map f := by
  induction l with
  | nil => rfl
  | cons e rest ih =>
      by_cases h : e.1 = k
      · simp [alistModify, alistLookup, h]
      · simpa [alistModify, alistLookup, h] using ih

/-! ### Data model (`src/monad-bot/src/position/tracker.rs`) -/

/-- Mirror of `struct Position`.  `amount` is the raw `U256` token amount;
`buy_price_mon` and `highest_price` are `f64` values modelled as rationals;
`buy_time` is a unix timestamp in seconds. -/
structure Position where
  token : Address
  name : String
  symbol : String
  amount : ℕ
  buy_price_mon : ℚ
  buy_time : ℕ
  highest_price : ℚ
  tx_hash : String
  deriving Repr, DecidableEq

/-- Mirror of `struct PositionTracker`: the authoritative map of open
positions, keyed by token address. -/
structure PositionTracker where
  positions : List (Address × Position)
  deriving Repr, DecidableEq

/-- `PositionTracker::get`. -/
def PositionTracker.get (tr : PositionTracker) (token : Address) : Option Position :=
  alistLookup tr.positions token

/-- `PositionTracker::remove` (the returned old value is dropped by every
caller in the sources, so only the new map is modelled). -/
def PositionTracker.removePos (tr : PositionTracker) (token : Address) : PositionTracker :=
  { positions := alistRemove tr.positions token }

/-- `PositionTracker::get_mut` followed by an in-place update. -/
def PositionTracker.modifyPos (tr : PositionTracker) (token : Address)
    (f : Position → Position) : PositionTracker :=
  { positions := alistModify tr.positions token f }

/-- `PositionTracker::add` (upsert by token key). -/
def PositionTracker.add (tr : PositionTracker) (position : Position) : PositionTracker :=
  { positions := alistInsert tr.positions position.token position }

/-! ### Risk evaluator (`src/monad-bot/src/position/trailing_sl.rs`) -/

/-- Mirror of `struct TrailingStopLossConfig`. -/
structure TrailingStopLossConfig where
  drop_pct : ℚ
  min_profit_pct : ℚ
  hard_stop_loss_pct : ℚ
  secure_profit_pct : ℚ
  secure_sell_portion : ℚ
  max_hold_hours : ℕ
  check_interval_sec : ℕ
  deriving Repr, DecidableEq

/-- Mirror of `enum SellDecision`. -/
inductive SellDecision where
  | Hold
  | TrailingStop (current_pnl : ℚ)
  | HardStopLoss (current_pnl : ℚ)
  | SecureProfit (portion : ℚ) (current_pnl : ℚ)
  | MaxHoldTime (hours_held : ℕ)
  deriving Repr, DecidableEq

/-- The unconditional high-water update at the top of
`PositionMonitor::check_position`:
`if current_price > position.highest_price { position.highest_price = current_price }`. -/
def update_highest (position : Position) (current_price : ℚ) : Position :=
  if position.highest_price < current_price then
    { position with highest_price := current_price }
  else
    position

/-- The guarded P&L computation of `check_position`:
`if buy_price_mon > 0.0 { (current - buy) / buy * 100.0 } else { 0.0 }`. -/
def pnl_pct (buy_price_mon current_price : ℚ) : ℚ :=
  if 0 < buy_price_mon then (current_price - buy_price_mon) / buy_price_mon * 100
  else 0

/-- `let hours_held = (now - position.buy_time) / 3600;` — `u64` arithmetic;
truncated subtraction models the in-practice `now >= buy_time` case exactly. -/
def hours_held (now buy_time : ℕ) : ℕ := (now - buy_time) / 3600

/-- The pure core of `PositionMonitor::check_position`, after the price fetch
succeeded with value `current_price`: updates the high-water mark, then runs
the exit checks in source order.  Returns the decision together with the
(possibly updated) position. -/
def check_position (cfg : TrailingStopLossConfig) (position0 : Position)
    (current_price : ℚ) (now : ℕ) : SellDecision × Position :=
  let position := update_highest position0 current_price
  let pnl := pnl_pct position.buy_price_mon current_price
  let hours := hours_held now position.buy_time
  if cfg.max_hold_hours ≤ hours then
    (.MaxHoldTime hours, position)
  else if pnl ≤ cfg.hard_stop_loss_pct then
    (.HardStopLoss pnl, position)
  else if cfg.secure_profit_pct ≤ pnl then
    (.SecureProfit cfg.secure_sell_portion pnl, position)
  else if cfg.min_profit_pct ≤ pnl ∧ 0 < position.highest_price then
    let drop_from_high := (position.highest_price - current_price) / position.highest_price * 100
    if cfg.drop_pct ≤ drop_from_high then (.TrailingStop pnl, position)
    else (.Hold, position)
  else
    (.Hold, position)

/-- The decision as the spec words it: the first triggered rule in the fixed
priority order MaxHoldTime, HardStopLoss, SecureProfit, TrailingStop wins,
otherwise Hold — stated with the four trigger conditions side by side rather
than nested. -/
def priority_sell_decision (cfg : TrailingStopLossConfig) (position0 : Position)
    (current_price : ℚ) (now : ℕ) : SellDecision :=
  let position := update_highest position0 current_price
  let pnl := pnl_pct position.buy_price_mon current_price
  let hours := hours_held now position.buy_time
  if cfg.max_hold_hours ≤ hours then
    .MaxHoldTime hours
  else if pnl ≤ cfg.hard_stop_loss_pct then
    .HardStopLoss pnl
  else if cfg.secure_profit_pct ≤ pnl then
    .SecureProfit cfg.secure_sell_portion pnl
  else if cfg.min_profit_pct ≤ pnl ∧ 0 < position.highest_price ∧
      cfg.drop_pct ≤ (position.highest_price - current_price) / position.highest_price * 100 then
    .TrailingStop pnl
  else
    .Hold

theorem update_highest_buy_price (position : Position) (c : ℚ) :
    (update_highest position c).buy_price_mon = position.buy_price_mon := by
  unfold update_highest; split <;> rfl

theorem update_highest_buy_time (position : Position) (c : ℚ) :
    (update_highest position c).buy_time = position.buy_time := by
  unfold update_highest; split <;> rfl

theorem update_highest_highest (position : Position) (c : ℚ) :
    (update_highest position c).highest_price = max position.highest_price c := by
  unfold update_highest
  rcases le_or_lt c position.highest_price with h | h
  · simp [not_lt.mpr h, max_eq_left h]
  · simp [h, max_eq_right h.le]

/-! ### Reputation tracker (`src/monad-bot/src/validators/wallet_tracker.rs`) -/

/-- Mirror of `struct WalletStats`; `f64` fields as rationals, `u32`/`u64`
counters and timestamps as naturals. -/
structure WalletStats where
  total_trades : ℕ
  wins : ℕ
  losses : ℕ
  total_pnl_mon : ℚ
  total_invested_mon : ℚ
  avg_roi_pct : ℚ
  avg_hold_time_sec : ℕ
  last_trade_time : ℕ
  win_streak : ℕ
  best_trade_mon : ℚ
  worst_trade_mon : ℚ
  deriving Repr, DecidableEq

/-- `impl Default for WalletStats` — all fields zero. -/
def walletStatsDefault : WalletStats :=
  { total_trades := 0, wins := 0, losses := 0, total_pnl_mon := 0,
    total_invested_mon := 0, avg_roi_pct := 0, avg_hold_time_sec := 0,
    last_trade_time := 0, win_streak := 0, best_trade_mon := 0,
    worst_trade_mon := 0 }

/-- Mirror of `struct PositionEntry` (the transient open-position ledger entry). -/
structure PositionEntry where
  entry_price_mon : ℚ
  entry_time : ℕ
  deriving Repr, DecidableEq

/-- Mirror of `struct WalletTracker`.  The nested
`HashMap<Wallet, HashMap<Token, PositionEntry>>` of `active_positions` is
flattened to a map keyed by the `(wallet, token)` pair, which has the same
lookup / insert / remove behaviour for every access in the sources. -/
structure WalletTracker where
  stats : List (Address × WalletStats)
  active_positions : List ((Address × Address) × PositionEntry)
  deriving Repr, DecidableEq

/-- `WalletTracker::record_buy`: opens (or overwrites) the transient ledger
entry for `(wallet, token)`. -/
def record_buy (t : WalletTracker) (wallet token : Address) (entry_price_mon : ℚ)
    (now : ℕ) : WalletTracker :=
  { t with
    active_positions :=
      alistInsert t.active_positions (wallet, token)
        { entry_price_mon := entry_price_mon, entry_time := now } }

/-- `WalletTracker::record_sell`: matches and removes the open ledger entry
for `(wallet, token)`; on a match updates the wallet's stats and returns
`Some pnl`, otherwise returns `None` leaving the tracker untouched.
`hold_time` uses `saturating_sub`, modelled by truncated `ℕ` subtraction. -/
def record_sell (t : WalletTracker) (wallet token : Address) (exit_price_mon : ℚ)
    (now : ℕ) : Option ℚ × WalletTracker :=
  match alistLookup t.active_positions (wallet, token) with
  | none => (none, t)
  | some entry =>
      let active1 := alistRemove t.active_positions (wallet, token)
      let pnl := exit_price_mon - entry.entry_price_mon
      let roi := if 0 < entry.entry_price_mon then pnl / entry.entry_price_mon * 100 else 0
      let hold_time := now - entry.entry_time
      let stats := (alistLookup t.stats wallet).getD walletStatsDefault
      let stats := { stats with
        total_trades := stats.total_trades + 1,
        last_trade_time := now,
        total_invested_mon := stats.total_invested_mon + entry.entry_price_mon,
        total_pnl_mon := stats.total_pnl_mon + pnl }
      let stats :=
        if 1 < stats.total_trades then
          { stats with
            avg_roi_pct :=
              (stats.avg_roi_pct * ((stats.total_trades : ℚ) - 1) + roi) /
                (stats.total_trades : ℚ),
            avg_hold_time_sec :=
              (stats.avg_hold_time_sec * (stats.total_trades - 1) + hold_time) /
                stats.total_trades }
        else
          { stats with avg_roi_pct := roi, avg_hold_time_sec := hold_time }
      let stats :=
        if 0 < pnl then
          { stats with wins := stats.wins + 1, win_streak := stats.win_streak + 1 }
        else
          { stats with losses := stats.losses + 1, win_streak := 0 }
      let stats :=
        if stats.best_trade_mon < pnl then { stats with best_trade_mon := pnl } else stats
      let stats :=
        if pnl < stats.worst_trade_mon then { stats with worst_trade_mon := pnl } else stats
      (some pnl, { stats := alistInsert t.stats wallet stats, active_positions := active1 })

/-- `f64::clamp(lo, hi)`. -/
def clampQ (x lo hi : ℚ) : ℚ := min (max x lo) hi

/-- `WalletTracker::calculate_score` — the "Golden Score" over a wallet's
stats. -/
def calculate_score (stats : WalletStats) : ℚ :=
  if stats.total_trades < 3 then 50
  else
    let win_rate := (stats.wins : ℚ) / (stats.total_trades : ℚ)
    let score_wr := win_rate * 40
    let score_roi := clampQ (stats.avg_roi_pct * 0.6) (-10) 30
    let score_pnl := clampQ stats.total_pnl_mon (-20) 20
    let score_streak := min (stats.win_streak : ℚ) 10
    clampQ (score_wr + score_roi + score_pnl + score_streak) 0 100

/-- `WalletTracker::get_score`: a wallet with no record gets the neutral 50. -/
def get_score (t : WalletTracker) (wallet : Address) : ℚ :=
  match alistLookup t.stats wallet with
  | some stats => calculate_score stats
  | none => 50

/-! ### Sell coordinator (`src/monad-bot/src/handlers/sell_handler.rs`) -/

/-- `const SELL_COOLDOWN_SECS: u64 = 30;` -/
def SELL_COOLDOWN_SECS : ℕ := 30

/-- `(*portion * 100.0) as u64`: truncation toward zero of the portion scaled
to whole percents (a negative value casts to 0, matching `Int.toNat`; the
saturation at `2 ^ 64` is unreachable for the portions in scope and elided). -/
def portionPct (portion : ℚ) : ℕ := ⌊portion * 100⌋.toNat

/-- `amount * U256::from((portion * 100.0) as u64) / U256::from(100)` — the
`U256` multiplication wraps at `2 ^ 256` (release profile semantics; the
theorems below supply no-overflow bounds under which the wrap is vacuous). -/
def sellAmount (amount : ℕ) (portion : ℚ) : ℕ :=
  amount * portionPct portion % U256_SIZE / 100

/-- The amount put up for sale for a decision: the `SecureProfit` portion of
the held amount, or the full amount for every other variant. -/
def resolveSellAmount (amount : ℕ) (decision : SellDecision) : ℕ :=
  match decision with
  | .SecureProfit portion _ => sellAmount amount portion
  | _ => amount

/-- One mutation applied to the `PositionTracker` by the coordinator. -/
inductive StoreMutation where
  | subtractAmount (token : Address) (sold : ℕ)
  | removePosition (token : Address)
  deriving Repr, DecidableEq

/-- A call made to an execution backend (amounts recorded for the trace). -/
inductive BackendCall where
  | sdkSell (slippage : ℚ) (amount : ℕ)
  | dexSell (amount : ℕ)
  deriving Repr, DecidableEq

/-- `update_position_after_sell`: for a `SecureProfit` decision the stored
amount is decremented by the sold portion of `original_amount` (a no-op when
the token is not tracked, as `get_mut` returns `None`); every other decision
removes the position.  The returned list records the store mutations that
actually happened (`pos.amount -= sold` is `U256` subtraction; the theorems
below establish `sold ≤ amount`, under which truncated `ℕ` subtraction is
exact). -/
def update_position_after_sell (store : PositionTracker) (token : Address)
    (decision : SellDecision) (original_amount : ℕ) :
    PositionTracker × List StoreMutation :=
  match decision with
  | .SecureProfit portion _ =>
      let sold := sellAmount original_amount portion
      (store.modifyPos token (fun pos => { pos with amount := pos.amount - sold }),
       if (store.get token).isSome then [.subtractAmount token sold] else [])
  | _ =>
      (store.removePos token,
       if (store.get token).isSome then [.removePosition token] else [])

/-- The retry / fallback ladder of `spawn_sell_handler` for one dequeued
signal, past the cooldown gate: look the position up, compute the sell
amount, then try the SDK at base 15% slippage, the SDK again at 25%, and
finally the DEX; the outcome of each external attempt (a transaction hash or
a failure cause) is passed in.  Returns the new store, the backend calls
made, and the store mutations performed. -/
def executeSell (store : PositionTracker) (token : Address) (decision : SellDecision)
    (sdk15 sdk25 dex : Except String ℕ) :
    PositionTracker × List BackendCall × List StoreMutation :=
  match store.get token with
  | none => (store, [], [])
  | some position =>
      let amount := position.amount
      let sell_amount := resolveSellAmount amount decision
      match sdk15 with
      | .ok _ =>
          let r := update_position_after_sell store token decision amount
          (r.1, [.sdkSell 15 sell_amount], r.2)
      | .error _ =>
          match sdk25 with
          | .ok _ =>
              let r := update_position_after_sell store token decision amount
              (r.1, [.sdkSell 15 sell_amount, .sdkSell 25 sell_amount], r.2)
          | .error _ =>
              match dex with
              | .ok _ =>
                  let r := update_position_after_sell store token decision amount
                  (r.1,
                   [.sdkSell 15 sell_amount, .sdkSell 25 sell_amount, .dexSell sell_amount],
                   r.2)
              | .error _ =>
                  (store,
                   [.sdkSell 15 sell_amount, .sdkSell 25 sell_amount, .dexSell sell_amount],
                   [])

/-- The state the sell-handler loop threads between iterations: the per-token
rate-limit map (`last_sell_attempt`, timestamps in seconds) and the shared
position store. -/
structure SellHandlerState where
  lastAttempt : List (Address × ℕ)
  store : PositionTracker
  deriving Repr, DecidableEq

/-- The cooldown gate at the top of the loop:
`last_attempt.elapsed() < Duration::from_secs(SELL_COOLDOWN_SECS)`. -/
def cooldownActive (lastAttempt : List (Address × ℕ)) (token : Address) (now : ℕ) : Bool :=
  match alistLookup lastAttempt token with
  | some last => now - last < SELL_COOLDOWN_SECS
  | none => false

/-- One iteration of the `spawn_sell_handler` loop for a dequeued
`(token, decision)` at time `now`: a request inside the cooldown window is
dropped with no further effect; otherwise the attempt time is recorded and
the retry ladder runs. -/
def sell_handler_step (st : SellHandlerState) (now : ℕ) (token : Address)
    (decision : SellDecision) (sdk15 sdk25 dex : Except String ℕ) :
    SellHandlerState × List BackendCall × List StoreMutation :=
  if cooldownActive st.lastAttempt token now then (st, [], [])
  else
    let r := executeSell st.store token decision sdk15 sdk25 dex
    ({ lastAttempt := alistInsert st.lastAttempt token now, store := r.1 },
     r.2.1, r.2.2)

/-! ### Lock-discipline traces (`spawn_monitor` / `spawn_sell_handler`) -/

/-- Events of the two engine tasks relevant to the lock discipline. -/
inductive TaskEvent where
  | lockAcquire
  | lockRelease
  | networkCall
  | storeAccess
  deriving Repr, DecidableEq

/-- Checks along a trace that every network call happens at lock depth 0. -/
def lockDepthOk : ℕ → List TaskEvent → Bool
  | _, [] => true
  | depth, .lockAcquire :: rest => lockDepthOk (depth + 1) rest
  | depth, .lockRelease :: rest => lockDepthOk (depth - 1) rest
  | depth, .networkCall :: rest => decide (depth = 0) && lockDepthOk depth rest
  | depth, .storeAccess :: rest => lockDepthOk depth rest

/-- The PositionStore lock is never held across a network call. -/
def noNetworkWhileLocked (events : List TaskEvent) : Prop :=
  lockDepthOk 0 events = true

/-- Event trace of one iteration of the `spawn_monitor` loop body: the
tracker lock is taken, the token list is collected, then for every tracked
token `get_mut` runs and `check_position` — which performs the
`getAmountsOut` network price query — is awaited while the guard is still
held; finally `save()` runs and the guard drops at the end of the iteration. -/
def monitor_cycle_events (tokens : List Address) : List TaskEvent :=
  [.lockAcquire, .storeAccess] ++
    (tokens.flatMap fun _ => [.storeAccess, .networkCall]) ++
    [.storeAccess, .lockRelease]

/-- Event trace of one processed sell signal in `spawn_sell_handler` (a
position is present and the request passed the cooldown): the lock is taken,
the amount and names are copied out, the guard is dropped, then `attempts`
backend calls run off-lock, and on success the lock is re-taken for the
write-back in `update_position_after_sell`. -/
def sell_handler_events (attempts : ℕ) (success : Bool) : List TaskEvent :=
  [.lockAcquire, .storeAccess, .lockRelease] ++
    List.replicate attempts .networkCall ++
    (if success then [.lockAcquire, .storeAccess, .lockRelease] else [])

/-! ### Example values used by witnesses and counterexamples -/

/-- The spec's end-to-end configuration: defaults of `config.rs`. -/
def cfgExample : TrailingStopLossConfig :=
  { drop_pct := 20, min_profit_pct := 50, hard_stop_loss_pct := -40,
    secure_profit_pct := 100, secure_sell_portion := 0.3, max_hold_hours := 48,
    check_interval_sec := 30 }

/-- A concrete open position (entry value 100, 1000 raw units). -/
def positionExample : Position :=
  { token := 1, name := "tok", symbol := "TK", amount := 1000,
    buy_price_mon := 100, buy_time := 0, highest_price := 100, tx_hash := "0xabc" }

/-- Example reputation record: 5 closed trades, 4 wins, average ROI 30,
total realized P&L 15, win streak 3. -/
def exampleStats : WalletStats :=
  { total_trades := 5, wins := 4, losses := 1, total_pnl_mon := 15,
    total_invested_mon := 100, avg_roi_pct := 30, avg_hold_time_sec := 60,
    last_trade_time := 0, win_streak := 3, best_trade_mon := 9,
    worst_trade_mon := -2 }

/-- The position store holding just `positionExample`. -/
def storeExample : PositionTracker := { positions := [(1, positionExample)] }

/-- A fresh handler state: no prior sell attempts, store holding
`positionExample`. -/
def handlerStateExample : SellHandlerState :=
  { lastAttempt := [], store := storeExample }

/-! ### Helper lemmas -/

theorem update_muts_single (store : PositionTracker) (token : Address)
    (decision : SellDecision) (original_amount : ℕ)
    (h : (store.get token).isSome = true) :
    ((update_position_after_sell store token decision original_amount).2).length = 1 := by
  cases decision <;> simp [update_position_after_sell, h]

theorem modifyPos_get_self (store : PositionTracker) (token : Address)
    (f : Position → Position) :
    (store.modifyPos token f).get token = (store.get token).map f := by
  simp [PositionTracker.modifyPos, PositionTracker.get, alistLookup_modify_self]

theorem removePos_get_self (store : PositionTracker) (token : Address) :
    (store.removePos token).get token = none := by
  simp [PositionTracker.removePos, PositionTracker.get, alistLookup_remove_self]

theorem sell_handler_step_skip (st : SellHandlerState) (now : ℕ) (token : Address)
    (d : SellDecision) (a b c : Except String ℕ)
    (h : cooldownActive st.lastAttempt token now = true) :
    sell_handler_step st now token d a b c = (st, [], []) := by
  simp [sell_handler_step, h]

/-! ### Claim theorems -/

/-- C1: `check_position` returns exactly one `SellDecision`, chosen by the
fixed priority order MaxHoldTime, HardStopLoss, SecureProfit, TrailingStop,
Hold (first match wins); in particular, whenever `hard_stop_loss_pct < 0`,
the hold-time ceiling is not exceeded and `pnl_pct ≤ hard_stop_loss_pct`,
the result is `HardStopLoss` even if the SecureProfit or TrailingStop
conditions also hold. -/
theorem check_position_priority (cfg : TrailingStopLossConfig) (position : Position)
    (current_price : ℚ) (now : ℕ) :
    (check_position cfg position current_price now).1 =
      priority_sell_decision cfg position current_price now ∧
    (cfg.hard_stop_loss_pct < 0 →
      hours_held now position.buy_time < cfg.max_hold_hours →
      pnl_pct position.buy_price_mon current_price ≤ cfg.hard_stop_loss_pct →
      (check_position cfg position current_price now).1 =
        .HardStopLoss (pnl_pct position.buy_price_mon current_price)) := by
  constructor
  · simp only [check_position, priority_sell_decision]
    split_ifs <;> simp_all
  · intro _ hhold hpnl
    have hhold' :
        ¬ cfg.max_hold_hours ≤ hours_held now position.buy_time :=
      not_le.mpr hhold
    simp only [check_position, update_highest_buy_time, update_highest_buy_price]
    rw [if_neg hhold', if_pos hpnl]

/-- Witness for C1 at the spec's hard-stop scenario: entry value 100,
`hard_stop_loss_pct = -40`, current value 55 (P&L −45%), one hour held. -/
theorem check_position_priority_witness :
    (check_position cfgExample positionExample 55 3600).1 =
      priority_sell_decision cfgExample positionExample 55 3600 ∧
    (check_position cfgExample positionExample 55 3600).1 =
      .HardStopLoss (pnl_pct positionExample.buy_price_mon 55) :=
  ⟨(check_position_priority cfgExample positionExample 55 3600).1,
   (check_position_priority cfgExample positionExample 55 3600).2
     (by norm_num [cfgExample]) (by decide)
     (by norm_num [pnl_pct, positionExample, cfgExample])⟩

/-- C6: `get_score` returns 50 for a wallet with no record or fewer than 3
closed trades; otherwise it is the weighted sum
`win_rate * 40 + clamp(avg_roi * 0.6, -10, 30) + clamp(total_pnl, -20, 20)
+ min(win_streak, 10)` clamped to `[0, 100]`; on the example record
(5 trades, 4 wins, avg ROI 30, total P&L 15, streak 3) the score is
`0.8 * 40 + 18 + 15 + 3 = 68`. -/
theorem get_score_spec (t : WalletTracker) (wallet : Address) :
    (alistLookup t.stats wallet = none → get_score t wallet = 50) ∧
    (∀ s, alistLookup t.stats wallet = some s → s.total_trades < 3 →
      get_score t wallet = 50) ∧
    (∀ s, alistLookup t.stats wallet = some s → 3 ≤ s.total_trades →
      get_score t wallet =
        clampQ ((s.wins : ℚ) / (s.total_trades : ℚ) * 40
          + clampQ (s.avg_roi_pct * 0.6) (-10) 30
          + clampQ s.total_pnl_mon (-20) 20
          + min (s.win_streak : ℚ) 10) 0 100) ∧
    calculate_score exampleStats = 68 := by
  refine ⟨?_, ?_, ?_, ?_⟩
  · intro h; simp [get_score, h]
  · intro s hs h3; simp [get_score, hs, calculate_score, h3]
  · intro s hs h3
    have h3' : ¬ s.total_trades < 3 := not_lt.mpr h3
    simp [get_score, hs, calculate_score, h3']
  · norm_num [calculate_score, clampQ, exampleStats, min_def, max_def]

/-- Witness for C6: a tracker with no record scores 50; the example record
scores by the stated formula. -/
theorem get_score_spec_witness :
    get_score { stats := [], active_positions := [] } 7 = 50 ∧
    get_score { stats := [(7, exampleStats)], active_positions := [] } 7 =
      clampQ ((exampleStats.wins : ℚ) / (exampleStats.total_trades : ℚ) * 40
        + clampQ (exampleStats.avg_roi_pct * 0.6) (-10) 30
        + clampQ exampleStats.total_pnl_mon (-20) 20
        + min (exampleStats.win_streak : ℚ) 10) 0 100 :=
  ⟨(get_score_spec { stats := [], active_positions := [] } 7).1 rfl,
   (get_score_spec { stats := [(7, exampleStats)], active_positions := [] } 7).2.2.1
     exampleStats rfl (by decide)⟩

/-- C7: after `check_position` the position's high-water mark is exactly
`update_highest`, i.e. `max` of the previous high and the current value —
so at least `max(previous, current)` — for every resulting decision; the
update is performed before and independently of the decision checks. -/
theorem check_position_high_water (cfg : TrailingStopLossConfig) (position : Position)
    (current_price : ℚ) (now : ℕ) :
    (check_position cfg position current_price now).2 =
      update_highest position current_price ∧
    max position.highest_price current_price ≤
      ((check_position cfg position current_price now).2).highest_price := by
  have h2 : (check_position cfg position current_price now).2 =
      update_highest position current_price := by
    simp only [check_position]
    split_ifs <;> rfl
  refine ⟨h2, ?_⟩
  rw [h2, update_highest_highest]

/-- C8: `record_sell` with no open ledger entry for `(wallet, token)` returns
`None` and leaves the whole tracker — stored stats and remaining ledger —
unchanged. -/
theorem record_sell_no_entry (t : WalletTracker) (wallet token : Address)
    (exit_price_mon : ℚ) (now : ℕ)
    (h : alistLookup t.active_positions (wallet, token) = none) :
    record_sell t wallet token exit_price_mon now = (none, t) := by
  simp [record_sell, h]

/-- Witness for C8 on an empty tracker. -/
theorem record_sell_no_entry_witness :
    record_sell { stats := [], active_positions := [] } 1 2 10 100 =
      (none, { stats := [], active_positions := [] }) :=
  record_sell_no_entry { stats := [], active_positions := [] } 1 2 10 100 rfl

/-- C9: the P&L computation is total and guarded: for `buy_price_mon ≤ 0` it
is defined as 0 (no division by zero is attempted), and for a positive entry
value it is `(current - entry) / entry * 100`. -/
theorem pnl_pct_total (buy_price_mon current_price : ℚ) :
    (buy_price_mon ≤ 0 → pnl_pct buy_price_mon current_price = 0) ∧
    (0 < buy_price_mon →
      pnl_pct buy_price_mon current_price =
        (current_price - buy_price_mon) / buy_price_mon * 100) := by
  constructor
  · intro h; simp [pnl_pct, not_lt.mpr h]
  · intro h; simp [pnl_pct, h]

/-- Witness for C9 at a degenerate and at a regular entry value. -/
theorem pnl_pct_total_witness :
    pnl_pct 0 7 = 0 ∧ pnl_pct 100 55 = (55 - 100) / 100 * 100 :=
  ⟨(pnl_pct_total 0 7).1 (by norm_num), (pnl_pct_total 100 55).2 (by norm_num)⟩

/-- C2: for a dequeued sell request past the cooldown whose token has an
open position, a primary failure, a primary-retry failure and a secondary
(DEX) success leave the store equal to one application of
`update_position_after_sell` — exactly one store mutation — while three
failures leave the store completely unchanged with no mutation. -/
theorem sell_retry_ladder_single_mutation (st : SellHandlerState) (now : ℕ)
    (token : Address) (decision : SellDecision) (position : Position)
    (e1 e2 e3 : String) (tx : ℕ)
    (hcool : cooldownActive st.lastAttempt token now = false)
    (hpos : st.store.get token = some position) :
    ((sell_handler_step st now token decision (.error e1) (.error e2) (.ok tx)).1.store =
        (update_position_after_sell st.store token decision position.amount).1 ∧
      (sell_handler_step st now token decision (.error e1) (.error e2) (.ok tx)).2.2 =
        (update_position_after_sell st.store token decision position.amount).2 ∧
      ((sell_handler_step st now token decision (.error e1) (.error e2) (.ok tx)).2.2).length
        = 1) ∧
    ((sell_handler_step st now token decision (.error e1) (.error e2) (.error e3)).1.store =
        st.store ∧
      (sell_handler_step st now token decision (.error e1) (.error e2) (.error e3)).2.2
        = []) := by
  have hS : (st.store.get token).isSome = true := by rw [hpos]; rfl
  refine ⟨⟨?_, ?_, ?_⟩, ?_, ?_⟩ <;>
    simp [sell_handler_step, hcool, executeSell, hpos,
      update_muts_single st.store token decision position.amount hS]

/-- Witness for C2: on the example store, a fail-fail-succeed ladder makes
one mutation and a fail-fail-fail ladder leaves the store unchanged. -/
theorem sell_retry_ladder_single_mutation_witness :
    ((sell_handler_step handlerStateExample 0 1 (.MaxHoldTime 50)
        (.error "curve quote revert") (.error "curve quote revert")
        (.ok 99)).2.2).length = 1 ∧
    (sell_handler_step handlerStateExample 0 1 (.MaxHoldTime 50)
        (.error "curve quote revert") (.error "curve quote revert")
        (.error "router revert")).1.store = storeExample :=
  ⟨(sell_retry_ladder_single_mutation handlerStateExample 0 1 (.MaxHoldTime 50)
      positionExample "curve quote revert" "curve quote revert" "router revert" 99
      rfl rfl).1.2.2,
   (sell_retry_ladder_single_mutation handlerStateExample 0 1 (.MaxHoldTime 50)
      positionExample "curve quote revert" "curve quote revert" "router revert" 99
      rfl rfl).2.1⟩

/-- C5: a second sell request for the same token dequeued within the 30 s
cooldown window of a processed first request is dropped whole: the handler
state (rate-limit map and store) is returned unchanged, and no backend call
and no store mutation happen. -/
theorem sell_cooldown_second_dropped (st : SellHandlerState) (t1 t2 : ℕ)
    (token : Address) (d1 d2 : SellDecision)
    (a1 b1 c1 a2 b2 c2 : Except String ℕ)
    (hcool : cooldownActive st.lastAttempt token t1 = false)
    (hle : t1 ≤ t2) (hwin : t2 - t1 < SELL_COOLDOWN_SECS) :
    cooldownActive (sell_handler_step st t1 token d1 a1 b1 c1).1.lastAttempt token t2
      = true ∧
    sell_handler_step (sell_handler_step st t1 token d1 a1 b1 c1).1 t2 token d2 a2 b2 c2 =
      ((sell_handler_step st t1 token d1 a1 b1 c1).1, [], []) := by
  have hlast : (sell_handler_step st t1 token d1 a1 b1 c1).1.lastAttempt =
      alistInsert st.lastAttempt token t1 := by
    simp [sell_handler_step, hcool]
  have hactive :
      cooldownActive (sell_handler_step st t1 token d1 a1 b1 c1).1.lastAttempt token t2
        = true := by
    rw [hlast]
    unfold cooldownActive
    rw [alistLookup_insert_self]
    exact decide_eq_true hwin
  exact ⟨hactive,
    sell_handler_step_skip (sell_handler_step st t1 token d1 a1 b1 c1).1
      t2 token d2 a2 b2 c2 hactive⟩

/-- Witness for C5: a first request at t = 0 followed by one at t = 10 for
the same token; the second is dropped with the state unchanged. -/
theorem sell_cooldown_second_dropped_witness :
    cooldownActive
      (sell_handler_step handlerStateExample 0 1 .Hold (.error "a") (.error "b")
        (.error "c")).1.lastAttempt 1 10 = true ∧
    sell_handler_step
      (sell_handler_step handlerStateExample 0 1 .Hold (.error "a") (.error "b")
        (.error "c")).1 10 1 .Hold (.error "a") (.error "b") (.error "c") =
      ((sell_handler_step handlerStateExample 0 1 .Hold (.error "a") (.error "b")
        (.error "c")).1, [], []) :=
  sell_cooldown_second_dropped handlerStateExample 0 10 1 .Hold .Hold
    (.error "a") (.error "b") (.error "c") (.error "a") (.error "b") (.error "c")
    rfl (by norm_num) (by norm_num [SELL_COOLDOWN_SECS])

/-- C3 counterexample: a successful `SecureProfit` sell with the full portion
`1.0` — a value the claim's range `(0, 1]` admits — drives the stored amount
of `positionExample` (1000 raw units) to exactly 0 but leaves the zero-amount
position stored instead of removing it. -/
theorem secure_profit_full_portion_zero_retained :
    ((update_position_after_sell storeExample 1 (.SecureProfit 1 80)
        positionExample.amount).1).get 1 =
      some { positionExample with amount := 0 } := by
  have h100 : Int.toNat 100 = 100 := rfl
  have hsell : sellAmount 1000 1 = 1000 := by
    norm_num [sellAmount, portionPct, U256_SIZE, h100]
  have hget : storeExample.get 1 = some positionExample := rfl
  simp [update_position_after_sell, modifyPos_get_self, hget, hsell, positionExample]

/-- C3 amended: a `SecureProfit` sell with portion in `(0, 1)` always leaves
the retained amount positive (so no zero entry can arise from a genuinely
partial sell), and every full-exit variant removes the position outright;
however a `SecureProfit` sell with portion exactly 1 reduces the amount to 0
and retains the position as a zero entry rather than removing it. -/
theorem update_position_after_sell_amount_spec (store : PositionTracker)
    (token : Address) (position : Position) (portion pnl : ℚ)
    (hget : store.get token = some position) (hamt : 0 < position.amount)
    (hp0 : 0 < portion) (hp1 : portion ≤ 1) :
    (portion < 1 →
      ((update_position_after_sell store token (.SecureProfit portion pnl)
          position.amount).1).get token =
        some { position with
          amount := position.amount - sellAmount position.amount portion } ∧
      0 < position.amount - sellAmount position.amount portion) ∧
    (∀ hours, ((update_position_after_sell store token (.MaxHoldTime hours)
        position.amount).1).get token = none) ∧
    (∀ p, ((update_position_after_sell store token (.HardStopLoss p)
        position.amount).1).get token = none) ∧
    (∀ p, ((update_position_after_sell store token (.TrailingStop p)
        position.amount).1).get token = none) ∧
    (portion = 1 → position.amount * 100 < U256_SIZE →
      ((update_position_after_sell store token (.SecureProfit portion pnl)
          position.amount).1).get token =
        some { position with amount := 0 }) := by
  refine ⟨?_, ?_, ?_, ?_, ?_⟩
  · intro hlt
    refine ⟨by simp [update_position_after_sell, modifyPos_get_self, hget], ?_⟩
    have hp99 : portionPct portion ≤ 99 := by
      have h1 : (portion * 100 : ℚ) < 100 := by linarith
      have h2 : ⌊portion * 100⌋ < 100 := Int.floor_lt.mpr (by exact_mod_cast h1)
      have h3 : ⌊portion * 100⌋ ≤ 99 := by omega
      exact Int.toNat_le.mpr (by exact_mod_cast h3)
    have hlt2 : sellAmount position.amount portion < position.amount := by
      have hmle : position.amount * portionPct portion % U256_SIZE ≤
          position.amount * portionPct portion := Nat.mod_le _ _
      have hbound : position.amount * portionPct portion ≤ position.amount * 99 :=
        Nat.mul_le_mul_left _ hp99
      have hlt100 : position.amount * portionPct portion % U256_SIZE <
          position.amount * 100 := by omega
      exact (Nat.div_lt_iff_lt_mul (by norm_num)).mpr hlt100
    omega
  · intro hours; simp [update_position_after_sell, removePos_get_self]
  · intro p; simp [update_position_after_sell, removePos_get_self]
  · intro p; simp [update_position_after_sell, removePos_get_self]
  · intro hpe hov
    subst hpe
    have h100 : Int.toNat 100 = 100 := rfl
    have hp : portionPct 1 = 100 := by norm_num [portionPct, h100]
    have hsell : sellAmount position.amount 1 = position.amount := by
      unfold sellAmount
      rw [hp, Nat.mod_eq_of_lt hov]
      omega
    simp [update_position_after_sell, modifyPos_get_self, hget, hsell]

/-- Witness for the amended C3 at portion 1/2 on the example store: the
retained amount is the positive difference, and a hard-stop full exit
removes the position. -/
theorem update_position_after_sell_amount_spec_witness :
    ((update_position_after_sell storeExample 1 (.SecureProfit (1 / 2) 0)
        positionExample.amount).1).get 1 =
      some { positionExample with
        amount := positionExample.amount - sellAmount positionExample.amount (1 / 2) } ∧
    0 < positionExample.amount - sellAmount positionExample.amount (1 / 2) ∧
    ((update_position_after_sell storeExample 1 (.HardStopLoss (-45))
        positionExample.amount).1).get 1 = none :=
  ⟨((update_position_after_sell_amount_spec storeExample 1 positionExample (1 / 2) 0
      rfl (by norm_num [positionExample]) (by norm_num) (by norm_num)).1
      (by norm_num)).1,
   ((update_position_after_sell_amount_spec storeExample 1 positionExample (1 / 2) 0
      rfl (by norm_num [positionExample]) (by norm_num) (by norm_num)).1
      (by norm_num)).2,
   (update_position_after_sell_amount_spec storeExample 1 positionExample (1 / 2) 0
      rfl (by norm_num [positionExample]) (by norm_num) (by norm_num)).2.2.1 (-45)⟩

/-- Spec-modelled sold amount as the claim words it: `original * portion`
under integer arithmetic, i.e. the integer truncation of the exact product. -/
def spec_sold_amount (original : ℕ) (portion : ℚ) : ℕ :=
  ⌊(original : ℚ) * portion⌋.toNat

/-- C4 counterexample: at portion 0.305 (= 61/200, inside `(0, 1]`) and
original amount 1000 the code sells 300 units — the portion is first
truncated to 30 whole percent — while `original * portion` is exactly 305,
so the post-sell amount 700 differs from `original - original * portion =
695` by 5 whole units, a loss beyond integer truncation. -/
theorem sell_amount_quantization_cex :
    (0 : ℚ) < 61 / 200 ∧ ((61 : ℚ) / 200) ≤ 1 ∧
    sellAmount 1000 (61 / 200) = 300 ∧
    spec_sold_amount 1000 (61 / 200) = 305 ∧
    1000 - sellAmount 1000 (61 / 200) ≠ 1000 - spec_sold_amount 1000 (61 / 200) := by
  have h : ⌊((61 : ℚ) / 200 * 100)⌋ = 30 := by rw [Int.floor_eq_iff]; norm_num
  have h30 : Int.toNat 30 = 30 := rfl
  have h305 : Int.toNat 305 = 305 := rfl
  have hs : sellAmount 1000 (61 / 200) = 300 := by
    norm_num [sellAmount, portionPct, U256_SIZE, h, h30]
  have h2 : ⌊(1000 : ℚ) * (61 / 200)⌋ = 305 := by rw [Int.floor_eq_iff]; norm_num
  have hspec : spec_sold_amount 1000 (61 / 200) = 305 := by
    simp [spec_sold_amount, h2, h305]
  refine ⟨by norm_num, by norm_num, hs, hspec, ?_⟩
  rw [hs, hspec]
  norm_num

/-- C4 amended: the sold amount is `original * ⌊portion * 100⌋ / 100` under
integer arithmetic — the portion is first truncated to a whole percentage
`p ≤ 100` — so it never exceeds `original`, remainder plus sold reconstructs
`original` exactly (nothing beyond the division truncation is lost:
`sold * 100 ≤ original * p < sold * 100 + 100`), and for a whole-percent
portion `k / 100` the sold amount is exactly `original * k / 100`. -/
theorem sell_amount_truncation_exact (original : ℕ) (portion : ℚ)
    (hp0 : 0 < portion) (hp1 : portion ≤ 1) (hov : original * 100 < U256_SIZE) :
    portionPct portion ≤ 100 ∧
    sellAmount original portion ≤ original ∧
    (original - sellAmount original portion) + sellAmount original portion = original ∧
    sellAmount original portion * 100 ≤ original * portionPct portion ∧
    original * portionPct portion < sellAmount original portion * 100 + 100 ∧
    (∀ k : ℕ, portion = (k : ℚ) / 100 →
      sellAmount original portion = original * k / 100) := by
  have hp100 : portionPct portion ≤ 100 := by
    have h1 : (portion * 100 : ℚ) ≤ 100 := by linarith
    have h2 : ⌊portion * 100⌋ ≤ 100 := by
      calc ⌊portion * 100⌋ ≤ ⌊(100 : ℚ)⌋ := Int.floor_le_floor h1
        _ = 100 := by norm_num
    exact Int.toNat_le.mpr (by exact_mod_cast h2)
  have hnw : original * portionPct portion < U256_SIZE :=
    lt_of_le_of_lt (Nat.mul_le_mul_left _ hp100) hov
  have hsell : sellAmount original portion = original * portionPct portion / 100 := by
    rw [sellAmount, Nat.mod_eq_of_lt hnw]
  have hle : sellAmount original portion ≤ original := by
    rw [hsell]
    calc original * portionPct portion / 100 ≤ original * 100 / 100 :=
          Nat.div_le_div_right (Nat.mul_le_mul_left _ hp100)
      _ = original := by omega
  refine ⟨hp100, hle, Nat.sub_add_cancel hle, ?_, ?_, ?_⟩
  · rw [hsell]; exact Nat.div_mul_le_self _ _
  · rw [hsell]
    have hdm := Nat.div_add_mod (original * portionPct portion) 100
    have hmodlt : original * portionPct portion % 100 < 100 :=
      Nat.mod_lt _ (by norm_num)
    omega
  · intro k hk
    have hkle : k ≤ 100 := by
      by_contra hgt
      push_neg at hgt
      have hq : (100 : ℚ) < (k : ℚ) := by exact_mod_cast hgt
      have hone : (1 : ℚ) < (k : ℚ) / 100 := by
        rw [lt_div_iff₀ (by norm_num)]; linarith
      rw [hk] at hp1
      linarith
    have hpk : portionPct portion = k := by
      rw [hk]
      unfold portionPct
      rw [div_mul_cancel₀ _ (by norm_num : (100 : ℚ) ≠ 0)]
      simp
    rw [sellAmount, hpk,
      Nat.mod_eq_of_lt (lt_of_le_of_lt (Nat.mul_le_mul_left _ hkle) hov)]

/-- Witness for the amended C4 at original 1000, portion 0.3: the sold
amount is bounded by the original, conservation holds, and the sold amount
is exactly `1000 * 30 / 100`. -/
theorem sell_amount_truncation_exact_witness :
    sellAmount 1000 (3 / 10) ≤ 1000 ∧
    (1000 - sellAmount 1000 (3 / 10)) + sellAmount 1000 (3 / 10) = 1000 ∧
    sellAmount 1000 (3 / 10) = 1000 * 30 / 100 :=
  ⟨(sell_amount_truncation_exact 1000 (3 / 10) (by norm_num) (by norm_num)
      (by norm_num [U256_SIZE])).2.1,
   (sell_amount_truncation_exact 1000 (3 / 10) (by norm_num) (by norm_num)
      (by norm_num [U256_SIZE])).2.2.1,
   (sell_amount_truncation_exact 1000 (3 / 10) (by norm_num) (by norm_num)
      (by norm_num [U256_SIZE])).2.2.2.2.2 30 (by norm_num)⟩

theorem lockDepthOk_replicate_network (n : ℕ) (rest : List TaskEvent) :
    lockDepthOk 0 (List.replicate n .networkCall ++ rest) = lockDepthOk 0 rest := by
  induction n with
  | zero => rfl
  | succ m ih => simpa [List.replicate_succ, lockDepthOk] using ih

/-- C10 counterexample: with a single tracked position, one iteration of the
`spawn_monitor` loop performs its network price fetch while the
PositionTracker lock is held — the claimed copy-out / release / fetch /
re-acquire shape does not hold for the monitor loop. -/
theorem monitor_lock_across_network_cex :
    ¬ noNetworkWhileLocked (monitor_cycle_events [1]) := by
  simp [noNetworkWhileLocked, monitor_cycle_events, lockDepthOk]

/-- C10 amended: the sell handler does follow the discipline — the store
lock is released before any backend call and re-acquired only for the
write-back — but the periodic monitor loop holds the PositionTracker lock
across the per-position price fetch, for every non-empty set of tracked
positions. -/
theorem position_store_lock_discipline (attempts : ℕ) (success : Bool)
    (tokens : List Address) (h : tokens ≠ []) :
    noNetworkWhileLocked (sell_handler_events attempts success) ∧
    ¬ noNetworkWhileLocked (monitor_cycle_events tokens) := by
  constructor
  · unfold noNetworkWhileLocked sell_handler_events
    cases success
    · have hrep := lockDepthOk_replicate_network attempts []
      simp at hrep
      simp [lockDepthOk, hrep]
    · simp [lockDepthOk, lockDepthOk_replicate_network]
  · obtain ⟨t, ts, rfl⟩ := List.exists_cons_of_ne_nil h
    simp [noNetworkWhileLocked, monitor_cycle_events, lockDepthOk]

/-- Witness for the amended C10: three off-lock backend attempts with a
write-back satisfy the discipline; a two-position monitor cycle violates it. -/
theorem position_store_lock_discipline_witness :
    noNetworkWhileLocked (sell_handler_events 3 true) ∧
    ¬ noNetworkWhileLocked (monitor_cycle_events [1, 2]) :=
  position_store_lock_discipline 3 true [1, 2] (by simp)

end MonadBot
